import Mathlib

set_option maxRecDepth 20000

/-!
Verification of the StatusReporter pipeline (`src/weather_bot.py`).

The script has three parts:
  * `get_weather`: flips a coin (`random.choice([True, False])`); on `True`
    returns the fixed string "☀️ Sunny, 25°C (Source: Primary API)", on
    `False` raises `Exception("Connection to Primary API Failed!")`.
  * `update_website status_text css_class`: builds an HTML document from a
    fixed template interpolating `css_class`, `status_text` and the current
    timestamp, then overwrites the file `index.html` with it.
  * the `__main__` driver: a `try` block calling `get_weather` and, on
    success, `update_website weather "status success"`; the
    `except Exception` handler calls
    `update_website backup_weather "status warning"`.

The embedding makes every source of nondeterminism an explicit input:
the coin flip, the outcome of each of the two possible filesystem writes,
and the clock string.  Filesystem state is the content of the single file
`index.html` (`none` when absent).  Exceptions are modelled with `Except`;
an exception escaping the whole script is exit code 1, as for an uncaught
Python exception.
-/

/-- Characters of `pat` are a prefix of `l`. -/
def isPrefixChars : List Char → List Char → Bool
  | [], _ => true
  | _ :: _, [] => false
  | a :: as, b :: bs => a == b && isPrefixChars as bs

/-- `pat` occurs contiguously somewhere inside `l`. -/
def hasInfixChars (pat : List Char) : List Char → Bool
  | [] => isPrefixChars pat []
  | b :: bs => isPrefixChars pat (b :: bs) || hasInfixChars pat bs

/-- Executable substring test: `pat` occurs contiguously in `s`. -/
def hasSubstr (s pat : String) : Bool :=
  hasInfixChars pat.data s.data

/-- The string returned by `get_weather` when the simulated connection holds. -/
def sunny_message : String := "☀️ Sunny, 25°C (Source: Primary API)"

/-- The message of the exception raised by `get_weather` on failure. -/
def connection_error : String := "Connection to Primary API Failed!"

/-- `get_weather` (src/weather_bot.py:5-14): the coin flip
`random.choice([True, False])` is the explicit argument; `True` returns the
fixed success string, `False` raises. -/
def get_weather (connection_stability : Bool) : Except String String :=
  if connection_stability then
    Except.ok sunny_message
  else
    Except.error connection_error

/-- Template text before the interpolated `css_class`
(src/weather_bot.py:19-33, up to `<h2 class="`). -/
def htmlHeader : String :=
  "\n<!DOCTYPE html>\n<html lang=\"en\">\n<head>\n    <meta charset=\"UTF-8\">\n    <meta name=\"viewport\" content=\"width=device-width, initial-scale=1.0\">\n    <title>Auto-Healing Weather</title>\n    <link rel=\"stylesheet\" href=\"style.css\">\n</head>\n<body>\n    <div class=\"container\">\n        <h1>🚀 Auto-Healing Pipeline</h1>\n        <div class=\"card\">\n            <p><strong>Live Weather:</strong></p>\n            <h2 class=\""

/-- Template text between `css_class` and `status_text`
(src/weather_bot.py:33). -/
def htmlMid1 : String := "\">"

/-- Template text between `status_text` and the timestamp
(src/weather_bot.py:33-35). -/
def htmlMid2 : String :=
  "</h2>\n            \n            <p class=\"timestamp\">Last Updated: "

/-- Template text after the timestamp (src/weather_bot.py:35-41). -/
def htmlFooter : String :=
  "</p>\n            <p><strong>Host:</strong> Vercel + GitHub Actions</p>\n        </div>\n    </div>\n</body>\n</html>\n    "

/-- `htmlHeader` is `htmlPre` followed by the opening of the h2 tag; this
split isolates the `class` attribute for the substring lemmas. -/
def htmlPre : String :=
  "\n<!DOCTYPE html>\n<html lang=\"en\">\n<head>\n    <meta charset=\"UTF-8\">\n    <meta name=\"viewport\" content=\"width=device-width, initial-scale=1.0\">\n    <title>Auto-Healing Weather</title>\n    <link rel=\"stylesheet\" href=\"style.css\">\n</head>\n<body>\n    <div class=\"container\">\n        <h1>🚀 Auto-Healing Pipeline</h1>\n        <div class=\"card\">\n            <p><strong>Live Weather:</strong></p>\n            "

/-- The `html_content` f-string of `update_website`
(src/weather_bot.py:19-41), with the current clock string `now` standing
for `datetime.now().strftime("%Y-%m-%d %H:%M:%S")`. -/
def html_content (status_text css_class now : String) : String :=
  htmlHeader ++ css_class ++ htmlMid1 ++ status_text ++ htmlMid2 ++ now ++ htmlFooter

/-- Filesystem state: the content of the single file `index.html`
(`none` when the file does not exist). -/
structure FS where
  index_html : Option String
  deriving DecidableEq, Repr

/-- `update_website` (src/weather_bot.py:16-45): builds `html_content` and
overwrites `index.html` with it.  `writeOk` is the outcome of the
`open(..., "w")`/`write` filesystem operation: on `false` the write raises
(e.g. `PermissionError`) and the file is left untouched. -/
def update_website (status_text css_class now : String) (writeOk : Bool)
    (_fs : FS) : Except String FS :=
  if writeOk then
    Except.ok { index_html := some (html_content status_text css_class now) }
  else
    Except.error "write to index.html denied"

/-- The backup string chosen by the except handler (src/weather_bot.py:61). -/
def backup_weather : String :=
  "☁️ Data Unavailable (System Healed - Using Backup Mode)"

/-- One run's environment: the coin flip inside `get_weather` and the
outcomes of the (at most two) filesystem writes, plus the clock. -/
structure Env where
  connection_stability : Bool
  successWriteOk : Bool
  fallbackWriteOk : Bool
  now : String

/-- Observable outcome of a run: final filesystem, process exit code, and
the `update_website` calls made, in order, as (status_text, css_class). -/
structure RunResult where
  fs : FS
  exitCode : Nat
  renderCalls : List (String × String)
  deriving DecidableEq, Repr

/-- The `except Exception` handler (src/weather_bot.py:55-65): substitutes
`backup_weather` and calls `update_website backup_weather "status warning"`.
An exception raised by that write is uncaught, so the process exits 1. -/
def exceptHandler (env : Env) (fs : FS) (calls : List (String × String)) :
    RunResult :=
  match update_website backup_weather "status warning" env.now
      env.fallbackWriteOk fs with
  | Except.ok fs2 =>
      { fs := fs2, exitCode := 0,
        renderCalls := calls ++ [(backup_weather, "status warning")] }
  | Except.error _ =>
      { fs := fs, exitCode := 1,
        renderCalls := calls ++ [(backup_weather, "status warning")] }

/-- The `__main__` driver (src/weather_bot.py:47-65): try `get_weather`
then `update_website weather "status success"`; any exception from either
is caught by the `except Exception` handler. -/
def runMain (env : Env) (fs : FS) : RunResult :=
  match get_weather env.connection_stability with
  | Except.error _ => exceptHandler env fs []
  | Except.ok weather =>
      match update_website weather "status success" env.now
          env.successWriteOk fs with
      | Except.ok fs2 =>
          { fs := fs2, exitCode := 0,
            renderCalls := [(weather, "status success")] }
      | Except.error _ =>
          exceptHandler env fs [(weather, "status success")]

/-! ### Helper lemmas about the substring test -/

theorem isPrefixChars_append (pat b : List Char) :
    isPrefixChars pat (pat ++ b) = true := by
  induction pat with
  | nil => rfl
  | cons a as ih => simp [isPrefixChars, ih]

theorem hasInfixChars_of_eq (pat a b l : List Char)
    (h : l = a ++ (pat ++ b)) : hasInfixChars pat l = true := by
  subst h
  induction a with
  | nil =>
      cases pat with
      | nil => cases b <;> simp [hasInfixChars, isPrefixChars]
      | cons p ps =>
          have h := isPrefixChars_append (p :: ps) b
          simp only [List.cons_append] at h
          simp [hasInfixChars, h]
  | cons x xs ih =>
      simp [hasInfixChars, ih]

theorem data_append (s t : String) : (s ++ t).data = s.data ++ t.data := rfl

theorem hasSubstr_of_decomp (s pat a b : String)
    (h : s.data = a.data ++ (pat.data ++ b.data)) : hasSubstr s pat = true :=
  hasInfixChars_of_eq pat.data a.data b.data s.data h

theorem htmlHeader_eq : htmlHeader = htmlPre ++ "<h2 class=\"" := by rfl

/-- Any substring of the interpolated `status_text` occurs in the rendered
document. -/
theorem html_content_status_sub (status_text css_class now pre pat post : String)
    (h : status_text = pre ++ pat ++ post) :
    hasSubstr (html_content status_text css_class now) pat = true := by
  apply hasSubstr_of_decomp _ _ (htmlHeader ++ css_class ++ htmlMid1 ++ pre)
    (post ++ htmlMid2 ++ now ++ htmlFooter)
  subst h
  simp [html_content, data_append, List.append_assoc]

/-- The rendered document embeds `css_class` verbatim inside the
`class` attribute of its `h2` element. -/
theorem html_content_h2 (status_text css_class now : String) :
    hasSubstr (html_content status_text css_class now)
      ("<h2 class=\"" ++ css_class ++ "\">") = true := by
  apply hasSubstr_of_decomp _ _ htmlPre
    (status_text ++ htmlMid2 ++ now ++ htmlFooter)
  simp [html_content, htmlHeader_eq, htmlMid1, data_append, List.append_assoc]

theorem sunny_message_split :
    sunny_message = "☀️ " ++ "Sunny, 25°C" ++ " (Source: Primary API)" := by rfl

theorem backup_weather_split :
    backup_weather =
      "☁️ " ++ "Data Unavailable" ++ " (System Healed - Using Backup Mode)" := by
  rfl

/-! ### Claim theorems -/

/-- C1: whenever `get_weather` raises its simulated failure (coin flip
`false`) and the fallback filesystem write goes through, the driver catches
the exception, substitutes the backup status, renders it with the warning
style, and the process exits 0 — the simulated failure never surfaces as a
crash. -/
theorem C1_failure_healed (env : Env) (fs : FS)
    (hconn : env.connection_stability = false)
    (hw : env.fallbackWriteOk = true) :
    (runMain env fs).exitCode = 0 ∧
    (runMain env fs).renderCalls = [(backup_weather, "status warning")] ∧
    (runMain env fs).fs.index_html =
      some (html_content backup_weather "status warning" env.now) := by
  rcases env with ⟨c, sw, fw, now⟩
  cases c <;> cases sw <;> cases fw <;>
    simp_all [runMain, get_weather, exceptHandler, update_website]

/-- Witness for C1 at a concrete run. -/
theorem C1_failure_healed_witness :
    (runMain ⟨false, true, true, "2024-05-01 12:00:00"⟩ ⟨none⟩).exitCode = 0 ∧
    (runMain ⟨false, true, true, "2024-05-01 12:00:00"⟩ ⟨none⟩).renderCalls =
      [(backup_weather, "status warning")] ∧
    (runMain ⟨false, true, true, "2024-05-01 12:00:00"⟩ ⟨none⟩).fs.index_html =
      some (html_content backup_weather "status warning"
        (Env.now ⟨false, true, true, "2024-05-01 12:00:00"⟩)) :=
  C1_failure_healed ⟨false, true, true, "2024-05-01 12:00:00"⟩ ⟨none⟩ rfl rfl

/-- C2 counterexample: the claim says a failed filesystem write in
`update_website` always propagates uncaught with a non-zero exit, in either
path.  Not so: in this run the success-path write fails, the exception is
caught by the top-level handler, the fallback write succeeds, and the
process exits 0 with the fallback page written. -/
theorem C2_counterexample :
    (runMain ⟨true, false, true, "2024-05-01 12:00:00"⟩ ⟨none⟩).exitCode = 0 ∧
    (runMain ⟨true, false, true, "2024-05-01 12:00:00"⟩ ⟨none⟩).fs.index_html =
      some (html_content backup_weather "status warning"
        "2024-05-01 12:00:00") :=
  ⟨rfl, rfl⟩

/-- C2 amended: a write failure in the fallback render propagates uncaught
(exit 1, file untouched); a write failure in the success-path render is
caught by the top-level handler, which retries with the fallback render and
exits 0 when that second write succeeds. -/
theorem C2_write_failure (env : Env) (fs : FS) :
    (env.fallbackWriteOk = false →
      (env.connection_stability = false ∨ env.successWriteOk = false) →
      (runMain env fs).exitCode = 1 ∧ (runMain env fs).fs = fs) ∧
    (env.connection_stability = true → env.successWriteOk = false →
      env.fallbackWriteOk = true → (runMain env fs).exitCode = 0) := by
  rcases env with ⟨c, sw, fw, now⟩
  cases c <;> cases sw <;> cases fw <;>
    simp_all [runMain, get_weather, exceptHandler, update_website]

/-- Witness for C2 amended: both conjuncts applied at concrete runs. -/
theorem C2_write_failure_witness :
    ((runMain ⟨false, true, false, "2024-05-01 12:00:00"⟩ ⟨none⟩).exitCode = 1 ∧
      (runMain ⟨false, true, false, "2024-05-01 12:00:00"⟩ ⟨none⟩).fs = ⟨none⟩) ∧
    (runMain ⟨true, false, true, "2024-05-01 12:00:00"⟩ ⟨none⟩).exitCode = 0 :=
  ⟨(C2_write_failure ⟨false, true, false, "2024-05-01 12:00:00"⟩ ⟨none⟩).1
      rfl (Or.inl rfl),
   (C2_write_failure ⟨true, false, true, "2024-05-01 12:00:00"⟩ ⟨none⟩).2
      rfl rfl rfl⟩

/-- C3: a run in which `get_weather` is forced to succeed (and the write
goes through) leaves an output file containing the substring
"Sunny, 25°C", with `success` inside the class attribute of the h2 status
element. -/
theorem C3_success_scenario (env : Env) (fs : FS)
    (hconn : env.connection_stability = true)
    (hw : env.successWriteOk = true) :
    ∃ doc, (runMain env fs).fs.index_html = some doc ∧
      hasSubstr doc "Sunny, 25°C" = true ∧
      hasSubstr doc "<h2 class=\"status success\">" = true := by
  have hdoc : (runMain env fs).fs.index_html =
      some (html_content sunny_message "status success" env.now) := by
    rcases env with ⟨c, sw, fw, now⟩
    cases c <;> cases sw <;> cases fw <;>
      simp_all [runMain, get_weather, exceptHandler, update_website]
  refine ⟨_, hdoc, ?_, ?_⟩
  · exact html_content_status_sub sunny_message "status success" env.now
      "☀️ " "Sunny, 25°C" " (Source: Primary API)" sunny_message_split
  · have h := html_content_h2 sunny_message "status success" env.now
    simpa using h

/-- Witness for C3 at a concrete run. -/
theorem C3_success_scenario_witness :
    ∃ doc,
      (runMain ⟨true, true, true, "2024-05-01 12:00:00"⟩ ⟨none⟩).fs.index_html =
        some doc ∧
      hasSubstr doc "Sunny, 25°C" = true ∧
      hasSubstr doc "<h2 class=\"status success\">" = true :=
  C3_success_scenario ⟨true, true, true, "2024-05-01 12:00:00"⟩ ⟨none⟩ rfl rfl

/-- C4: a run in which `get_weather` is forced to raise (and the fallback
write goes through) leaves an output file containing the substring
"Data Unavailable", with `warning` inside the class attribute of the h2
status element. -/
theorem C4_fallback_scenario (env : Env) (fs : FS)
    (hconn : env.connection_stability = false)
    (hw : env.fallbackWriteOk = true) :
    ∃ doc, (runMain env fs).fs.index_html = some doc ∧
      hasSubstr doc "Data Unavailable" = true ∧
      hasSubstr doc "<h2 class=\"status warning\">" = true := by
  have hdoc : (runMain env fs).fs.index_html =
      some (html_content backup_weather "status warning" env.now) := by
    rcases env with ⟨c, sw, fw, now⟩
    cases c <;> cases sw <;> cases fw <;>
      simp_all [runMain, get_weather, exceptHandler, update_website]
  refine ⟨_, hdoc, ?_, ?_⟩
  · exact html_content_status_sub backup_weather "status warning" env.now
      "☁️ " "Data Unavailable" " (System Healed - Using Backup Mode)"
      backup_weather_split
  · have h := html_content_h2 backup_weather "status warning" env.now
    simpa using h

/-- Witness for C4 at a concrete run. -/
theorem C4_fallback_scenario_witness :
    ∃ doc,
      (runMain ⟨false, true, true, "2024-05-01 12:00:00"⟩ ⟨none⟩).fs.index_html =
        some doc ∧
      hasSubstr doc "Data Unavailable" = true ∧
      hasSubstr doc "<h2 class=\"status warning\">" = true :=
  C4_fallback_scenario ⟨false, true, true, "2024-05-01 12:00:00"⟩ ⟨none⟩ rfl rfl

/-- C5: in every run whose filesystem writes succeed, exactly one rendering
is performed — the success one or the fallback one — never both and never
neither: the list of `update_website` calls has length one and is either
the success render or the fallback render. -/
theorem C5_exactly_one_render (env : Env) (fs : FS)
    (hsw : env.successWriteOk = true) (hfw : env.fallbackWriteOk = true) :
    (runMain env fs).renderCalls.length = 1 ∧
    ((runMain env fs).renderCalls = [(sunny_message, "status success")] ∨
      (runMain env fs).renderCalls = [(backup_weather, "status warning")]) := by
  rcases env with ⟨c, sw, fw, now⟩
  cases c <;> cases sw <;> cases fw <;>
    simp_all [runMain, get_weather, exceptHandler, update_website]

/-- Witness for C5 at a concrete run. -/
theorem C5_exactly_one_render_witness :
    (runMain ⟨true, true, true, "2024-05-01 12:00:00"⟩ ⟨none⟩).renderCalls.length
      = 1 ∧
    ((runMain ⟨true, true, true, "2024-05-01 12:00:00"⟩ ⟨none⟩).renderCalls =
        [(sunny_message, "status success")] ∨
      (runMain ⟨true, true, true, "2024-05-01 12:00:00"⟩ ⟨none⟩).renderCalls =
        [(backup_weather, "status warning")]) :=
  C5_exactly_one_render ⟨true, true, true, "2024-05-01 12:00:00"⟩ ⟨none⟩ rfl rfl

/-- C6: whenever a run completes with exit code 0, the final content of
`index.html` is independent of whatever the file held before the run (the
file is fully replaced, never appended to), and equals exactly the document
rendered by that run's last `update_website` call. -/
theorem C6_full_replacement (env : Env) (fs fs2 : FS)
    (h : (runMain env fs).exitCode = 0) :
    (runMain env fs).fs = (runMain env fs2).fs ∧
    ∃ c, (runMain env fs).renderCalls.getLast? = some c ∧
      (runMain env fs).fs.index_html = some (html_content c.1 c.2 env.now) := by
  rcases env with ⟨c, sw, fw, now⟩
  cases c <;> cases sw <;> cases fw <;>
    simp_all [runMain, get_weather, exceptHandler, update_website,
      List.getLast?]

/-- Witness for C6: a run over a pre-existing file yields the same final
state as a run over an absent file. -/
theorem C6_full_replacement_witness :
    (runMain ⟨false, true, true, "2024-05-01 12:00:00"⟩ ⟨some "old leftover"⟩).fs
      = (runMain ⟨false, true, true, "2024-05-01 12:00:00"⟩ ⟨none⟩).fs ∧
    ∃ c,
      (runMain ⟨false, true, true, "2024-05-01 12:00:00"⟩
          ⟨some "old leftover"⟩).renderCalls.getLast? = some c ∧
      (runMain ⟨false, true, true, "2024-05-01 12:00:00"⟩
          ⟨some "old leftover"⟩).fs.index_html =
        some (html_content c.1 c.2
          (Env.now ⟨false, true, true, "2024-05-01 12:00:00"⟩)) :=
  C6_full_replacement ⟨false, true, true, "2024-05-01 12:00:00"⟩
    ⟨some "old leftover"⟩ ⟨none⟩ rfl

/-- C7: `update_website` is deterministic in (status_text, css_class,
clock): two successful calls with the same arguments produce the same
result regardless of the previous file content, and that result is exactly
the template instantiated at those arguments. -/
theorem C7_render_deterministic (status_text css_class now : String)
    (fs1 fs2 : FS) :
    update_website status_text css_class now true fs1 =
      update_website status_text css_class now true fs2 ∧
    update_website status_text css_class now true fs1 =
      Except.ok ⟨some (html_content status_text css_class now)⟩ :=
  ⟨rfl, rfl⟩

/-- C8 counterexample: when `get_weather` selects the success variant its
message is not exactly the string "Sunny, 25°C" (it is the longer
"☀️ Sunny, 25°C (Source: Primary API)"). -/
theorem C8_counterexample :
    get_weather true ≠ Except.ok "Sunny, 25°C" := by
  intro h
  simp [get_weather, sunny_message] at h

/-- C8 amended: when `get_weather` selects the success variant, the message
it returns is exactly the fixed string
"☀️ Sunny, 25°C (Source: Primary API)", which contains "Sunny, 25°C" as a
substring but is not the bare string "Sunny, 25°C". -/
theorem C8_success_message (b : Bool) (m : String)
    (h : get_weather b = Except.ok m) :
    m = sunny_message ∧ hasSubstr m "Sunny, 25°C" = true ∧
      m ≠ "Sunny, 25°C" := by
  cases b with
  | false => simp [get_weather] at h
  | true =>
      simp [get_weather] at h
      subst h
      refine ⟨rfl, ?_, by decide⟩
      exact hasSubstr_of_decomp sunny_message "Sunny, 25°C" "☀️ "
        " (Source: Primary API)" (by decide)

/-- Witness for C8 amended at the success coin flip. -/
theorem C8_success_message_witness :
    sunny_message = sunny_message ∧
    hasSubstr sunny_message "Sunny, 25°C" = true ∧
    sunny_message ≠ "Sunny, 25°C" :=
  C8_success_message true sunny_message rfl

/-- C9: any exception raised inside the top-level try block — the simulated
`get_weather` failure or a write failure of the success-path
`update_website` call — is caught by the single `except Exception` handler,
whose final action is the fallback render with the warning style; when the
fallback write succeeds the process then exits 0. -/
theorem C9_any_exception_caught (env : Env) (fs : FS)
    (h : env.connection_stability = false ∨ env.successWriteOk = false) :
    (runMain env fs).renderCalls.getLast? =
      some (backup_weather, "status warning") ∧
    (env.fallbackWriteOk = true → (runMain env fs).exitCode = 0) := by
  rcases env with ⟨c, sw, fw, now⟩
  cases c <;> cases sw <;> cases fw <;>
    simp_all [runMain, get_weather, exceptHandler, update_website,
      List.getLast?]

/-- Witness for C9 at the success-path write failure, the interesting
caught exception. -/
theorem C9_any_exception_caught_witness :
    (runMain ⟨true, false, true, "2024-05-01 12:00:00"⟩
        ⟨none⟩).renderCalls.getLast? =
      some (backup_weather, "status warning") ∧
    (Env.fallbackWriteOk ⟨true, false, true, "2024-05-01 12:00:00"⟩ = true →
      (runMain ⟨true, false, true, "2024-05-01 12:00:00"⟩ ⟨none⟩).exitCode
        = 0) :=
  C9_any_exception_caught ⟨true, false, true, "2024-05-01 12:00:00"⟩ ⟨none⟩
    (Or.inr rfl)

/-- C10: every `update_website` call a run performs is exactly the success
render `(sunny_message, "status success")` — and that only in the success
path, when the coin flip succeeded — or exactly the fallback render
`(backup_weather, "status warning")` — and that only in the fallback path,
when the try block raised; the css_class is thus exactly the two-token
string "status success" in the success path and "status warning" in the
fallback path, never the bare "success" or "warning", and it is
interpolated verbatim into the class attribute of the h2 element of the
rendered document. -/
theorem C10_css_class_verbatim (env : Env) (fs : FS) (c : String × String)
    (h : c ∈ (runMain env fs).renderCalls) :
    (c = (sunny_message, "status success") ∨
      c = (backup_weather, "status warning")) ∧
    (c = (sunny_message, "status success") →
      env.connection_stability = true) ∧
    (c = (backup_weather, "status warning") →
      env.connection_stability = false ∨ env.successWriteOk = false) ∧
    c.2 ≠ "success" ∧ c.2 ≠ "warning" ∧
    hasSubstr (html_content c.1 c.2 env.now)
      ("<h2 class=\"" ++ c.2 ++ "\">") = true := by
  have key : (c = (sunny_message, "status success") ∧
        env.connection_stability = true) ∨
      (c = (backup_weather, "status warning") ∧
        (env.connection_stability = false ∨ env.successWriteOk = false)) := by
    rcases env with ⟨cs, sw, fw, now⟩
    cases cs <;> cases sw <;> cases fw <;>
      simp_all [runMain, get_weather, exceptHandler, update_website]
  have hne : ((sunny_message, "status success") : String × String) ≠
      (backup_weather, "status warning") := by decide
  rcases key with ⟨hc, hpath⟩ | ⟨hc, hpath⟩
  · subst hc
    refine ⟨Or.inl rfl, fun _ => hpath, fun hab => absurd hab hne, ?_, ?_,
      html_content_h2 _ _ env.now⟩
    · decide
    · decide
  · subst hc
    refine ⟨Or.inr rfl, fun hab => absurd hab.symm hne, fun _ => hpath, ?_,
      ?_, html_content_h2 _ _ env.now⟩
    · decide
    · decide

/-- Witness for C10 at the success render of a concrete run. -/
theorem C10_css_class_verbatim_witness :
    ((sunny_message, "status success") = (sunny_message, "status success") ∨
      (sunny_message, "status success") = (backup_weather, "status warning")) ∧
    ((sunny_message, "status success") = (sunny_message, "status success") →
      Env.connection_stability ⟨true, true, true, "2024-05-01 12:00:00"⟩ =
        true) ∧
    ((sunny_message, "status success") = (backup_weather, "status warning") →
      Env.connection_stability ⟨true, true, true, "2024-05-01 12:00:00"⟩ =
          false ∨
        Env.successWriteOk ⟨true, true, true, "2024-05-01 12:00:00"⟩ =
          false) ∧
    (sunny_message, "status success").2 ≠ "success" ∧
    (sunny_message, "status success").2 ≠ "warning" ∧
    hasSubstr
      (html_content (sunny_message, "status success").1
        (sunny_message, "status success").2
        (Env.now ⟨true, true, true, "2024-05-01 12:00:00"⟩))
      ("<h2 class=\"" ++ (sunny_message, "status success").2 ++ "\">") =
      true :=
  C10_css_class_verbatim ⟨true, true, true, "2024-05-01 12:00:00"⟩ ⟨none⟩
    (sunny_message, "status success") (by simp [runMain, get_weather,
      exceptHandler, update_website])
